import Mathlib

/-!
Shallow embedding of the fast-food dashboard repository's data loading,
cleaning, filtering and aggregation pipeline.

The repository has two near-duplicate variants:
- variant A (`apply.py`): `load_and_clean_data` drops duplicate rows by the
  `id` column keeping the last occurrence, then strips and lowercases the
  `categories` column; three except branches map failures to messages.
- variant B (`old-app.py`): `load_data` splits the `categories` column on
  the literal `" and "` and performs no deduplication; a single generic
  except branch maps every failure to a message.

Tables are modelled as lists of records; pandas column operations become
list operations; exceptions become `Except` / `Option` results.
-/

/-- One row of the raw CSV (and of variant A's loaded table): the
`categories` field is a single string. -/
structure Row where
  id : String
  name : String
  address : String
  city : String
  postalCode : String
  province : String
  latitude : Int
  longitude : Int
  categories : String
deriving DecidableEq

/-- One row of variant B's loaded table: `old-app.py` line 23 replaces the
`categories` string by `str.split(' and ')`, a list of tokens. -/
structure RowB where
  id : String
  name : String
  address : String
  city : String
  postalCode : String
  province : String
  latitude : Int
  longitude : Int
  categories : List String
deriving DecidableEq

/-- Outcome of `pd.read_csv(url)`: the fetch/parse either raises an
exception that is not an `EmptyDataError` (network failure and any other
unexpected failure, carrying a message), raises `pd.errors.EmptyDataError`
(empty resource), or yields a parsed frame.  A parsed frame records whether
the required `categories` column is present (`False` makes the later
column access raise `KeyError`) together with its rows. -/
inductive Fetched where
  | fetchError (msg : String)
  | empty
  | data (hasCategories : Bool) (rows : List Row)
deriving DecidableEq

/-- Failure classification produced by variant A's except branches
(`apply.py` lines 23-28): the first two messages signal unavailable data
(empty file, missing `categories` column), the third is the generic
unexpected-error message carrying the underlying exception text. -/
inductive LoadFailure where
  | dataUnavailableEmpty
  | dataUnavailableMissingColumn
  | loadError (msg : String)
deriving DecidableEq

/-- Whether a `LoadFailure` is one of the two `DataUnavailable` conditions
(empty resource or missing `categories` column), as opposed to the generic
unexpected-error message. -/
def isDataUnavailable : LoadFailure → Bool
  | LoadFailure.dataUnavailableEmpty => true
  | LoadFailure.dataUnavailableMissingColumn => true
  | LoadFailure.loadError _ => false

/-- Embedding of `df.drop_duplicates(subset=['id'], keep='last')`
(`apply.py` line 16): a row is kept exactly when no later row has the same
`id`; kept rows stay in their original order. -/
def dropDuplicatesById : List Row → List Row
  | [] => []
  | r :: rest =>
      if rest.any (fun s => s.id == r.id) then dropDuplicatesById rest
      else r :: dropDuplicatesById rest

/-- Embedding of `df['categories'] = df['categories'].str.strip().str.lower()`
(`apply.py` line 19) applied to one row. -/
def cleanRow (r : Row) : Row :=
  { r with categories := r.categories.trim.toLower }

/-- Variant A loader `load_and_clean_data` (`apply.py` lines 9-28): on a
parsed frame it drops duplicate ids keeping the last occurrence and cleans
`categories`; `EmptyDataError` hits the first except branch, a missing
`categories` column hits the `KeyError` branch, and every other exception
(network failures included) hits the generic branch.  Each except branch
shows an error message and falls off the function returning `None`; the
`Except` error value records which message was shown. -/
def load_and_clean_data : Fetched → Except LoadFailure (List Row)
  | Fetched.fetchError msg => Except.error (LoadFailure.loadError msg)
  | Fetched.empty => Except.error LoadFailure.dataUnavailableEmpty
  | Fetched.data hasCategories rows =>
      if hasCategories then
        Except.ok ((dropDuplicatesById rows).map cleanRow)
      else Except.error LoadFailure.dataUnavailableMissingColumn

/-- Value `load_and_clean_data()` actually returns to the script
(`apply.py` line 34): the cleaned table on success, `None` on any failure. -/
def loadResult (f : Fetched) : Option (List Row) :=
  (load_and_clean_data f).toOption

/-- Guard at `apply.py` line 36: the dashboard body runs only when the
loader returned a table (`if df is not None`). -/
def appRuns (f : Fetched) : Bool :=
  (loadResult f).isSome

/-- Embedding of variant B's per-row cleaning, `old-app.py` line 23:
`categories` becomes `categories.split(' and ')`. -/
def splitRow (r : Row) : RowB :=
  { id := r.id, name := r.name, address := r.address, city := r.city,
    postalCode := r.postalCode, province := r.province,
    latitude := r.latitude, longitude := r.longitude,
    categories := r.categories.splitOn " and " }

/-- Variant B loader `load_data` (`old-app.py` lines 16-27): splits the
`categories` column and returns the frame otherwise unchanged — in
particular it performs no deduplication by `id`.  A single
`except Exception` branch turns every failure (empty data, missing column,
network error, anything else) into an error message plus `return None`. -/
def load_data : Fetched → Option (List RowB)
  | Fetched.fetchError _ => none
  | Fetched.empty => none
  | Fetched.data hasCategories rows =>
      if hasCategories then some (rows.map splitRow) else none

/-- Embedding of `filter_data_by_province` (`apply.py` lines 46-50): the
whole table for `"All"`, otherwise the rows whose `province` is exactly the
selected one.  The Python closure reads the loaded frame from the enclosing
scope; here that frame is the explicit first argument. -/
def filter_data_by_province (df : List Row) (province : String) : List Row :=
  if province = "All" then df
  else df.filter (fun r => r.province == province)

/-- Embedding of `filter_data_by_city_province` (`apply.py` lines 65-73):
`"All"` short-circuits a dimension, the city comparison lowercases both
sides, the province comparison is exact. -/
def filter_data_by_city_province (df : List Row) (city province : String) :
    List Row :=
  if province = "All" then
    if city = "All" then df
    else df.filter (fun r => r.city.toLower == city.toLower)
  else
    if city = "All" then df.filter (fun r => r.province == province)
    else df.filter (fun r =>
      r.city.toLower == city.toLower && r.province == province)

/-- Embedding of `get_category_data` (`apply.py` lines 119-123): the full
loaded table when the multiselect is empty, otherwise the rows whose
`categories` value is a member of the selection (`isin`).  As in
`filter_data_by_province`, the Python closure reads the loaded frame `df`
from the enclosing scope — not the province/city-filtered frame — and that
frame is the explicit first argument here. -/
def get_category_data (df : List Row) (categories_selected : List String) :
    List Row :=
  if categories_selected.isEmpty then df
  else df.filter (fun r => categories_selected.contains r.categories)

/-- Embedding of `pandas.Series.value_counts()`: one `(value, count)` pair
per distinct value of the column, sorted by descending count. -/
def value_counts (l : List String) : List (String × Nat) :=
  (l.dedup.map (fun v => (v, l.count v))).mergeSort
    (fun a b => decide (b.2 ≤ a.2))

/-- Lexicographic comparison of character lists, by code point. -/
def charListLe : List Char → List Char → Bool
  | [], _ => true
  | _ :: _, [] => false
  | c :: cs, d :: ds =>
      if c.toNat = d.toNat then charListLe cs ds
      else decide (c.toNat < d.toNat)

/-- Lexicographic string order used for the sorted group keys of a pandas
`groupby`. -/
def strLe (a b : String) : Bool := charListLe a.data b.data

/-- Embedding of a pandas `groupby(keys).size()`: one `(key, count)` pair
per distinct key, with the group keys in sorted order (pandas `groupby`
sorts the group keys; `le` is the key order). -/
def groupbySize {α : Type} [DecidableEq α] (le : α → α → Bool)
    (keys : List α) : List (α × Nat) :=
  (keys.dedup.mergeSort le).map (fun v => (v, keys.count v))

/-- Embedding of `df.groupby(['name']).size()` (`apply.py` line 153). -/
def groupby_size (keys : List String) : List (String × Nat) :=
  groupbySize strLe keys

/-- Lexicographic Boolean order on string pairs, used to model the sorted
group keys of a two-column `groupby`. -/
def pairLe (a b : String × String) : Bool :=
  if a.1 = b.1 then strLe a.2 b.2 else strLe a.1 b.1

/-- Embedding of `df.groupby(['province', 'categories']).size()`
(`apply.py` line 127): one `(key, count)` pair per distinct
province/categories pair, group keys sorted. -/
def groupby_size2 (keys : List (String × String)) :
    List ((String × String) × Nat) :=
  groupbySize pairLe keys

/-- Embedding of `get_top_10_restaurants` (`apply.py` lines 151-154):
group by `name`, take sizes, sort descending by count, keep the first 10.
The final sort is modelled as a stable sort applied to the
alphabetically-keyed `groupby` output. -/
def get_top_10_restaurants (df : List Row) : List (String × Nat) :=
  let restaurant_counts := groupby_size (df.map (fun r => r.name))
  (restaurant_counts.mergeSort (fun a b => decide (b.2 ≤ a.2))).take 10

/-- Embedding of `old-app.py` line 170,
`len(state_df) / len(state_df['city'].unique())`: the row count divided by
the number of distinct values of the grouping column.  Python raises
`ZeroDivisionError` when the distinct count is zero; the embedding returns
`none` there. -/
def averageGroupSize (keys : List String) : Option ℚ :=
  if keys.dedup.length = 0 then none
  else some ((keys.length : ℚ) / (keys.dedup.length : ℚ))

/-- Average restaurants per city of a table, `old-app.py` line 170
specialised to the `city` column. -/
def avg_per_city (df : List Row) : Option ℚ :=
  averageGroupSize (df.map (fun r => r.city))

/-- Embedding of `filtered_df.explode('categories')` followed by taking the
`categories` column (`old-app.py` lines 122-123): the concatenation of the
per-row token lists. -/
def exploded_categories (df : List RowB) : List String :=
  df.flatMap (fun r => r.categories)

/-- Variant B's per-category counts (`old-app.py` lines 122-123):
`value_counts` of the exploded `categories` column. -/
def category_counts_B (df : List RowB) : List (String × Nat) :=
  value_counts (exploded_categories df)

/-- Embedding of `old-app.py` line 94, `df[df['province'].isin(selected_state)]`. -/
def filter_by_states (df : List RowB) (selected_state : List String) :
    List RowB :=
  df.filter (fun r => selected_state.contains r.province)

/-- Embedding of `old-app.py` lines 95-96: the chain filter applies only
when the multiselect is non-empty. -/
def filter_by_chains (df : List RowB) (selected_chains : List String) :
    List RowB :=
  if selected_chains.isEmpty then df
  else df.filter (fun r => selected_chains.contains r.name)

/-- Derived values the variant A script computes from the loaded table and
the current widget selections (`apply.py` lines 53, 76, 89, 126-127, 142,
164). -/
structure AppView where
  filtered_df : List Row
  filtered_city_province_df : List Row
  province_counts : List (String × Nat)
  category_data : List Row
  category_counts : List ((String × String) × Nat)
  type_counts : List (String × Nat)
  top_10_restaurants : List (String × Nat)
deriving DecidableEq

/-- Dataflow of the variant A script body (`apply.py` lines 36-165) as a
function of the loaded table and the three widget selections: the province
filter feeds the city/province filter, whose result feeds the province
counts; `get_category_data` is applied to the loaded table itself and feeds
both category aggregations; the top-10 aggregation reads the
province-filtered table. -/
def runApp (df : List Row) (selected_province selected_city : String)
    (categories_selected : List String) : AppView :=
  let filtered_df := filter_data_by_province df selected_province
  let fcp := filter_data_by_city_province filtered_df selected_city
    selected_province
  let category_data := get_category_data df categories_selected
  { filtered_df := filtered_df
    filtered_city_province_df := fcp
    province_counts := value_counts (fcp.map (fun r => r.province))
    category_data := category_data
    category_counts := groupby_size2
      (category_data.map (fun r => (r.province, r.categories)))
    type_counts := value_counts (category_data.map (fun r => r.categories))
    top_10_restaurants := get_top_10_restaurants filtered_df }

/-! ## Concrete sample data used by witnesses and counterexamples -/

/-- Helper building a `Row` from the fields the claims talk about. -/
def mkRow (i n city prov cat : String) : Row :=
  { id := i, name := n, address := "", city := city, postalCode := "",
    province := prov, latitude := 0, longitude := 0, categories := cat }

/-- Sample table: four rows in one province spread over two cities. -/
def exT4 : List Row :=
  [mkRow "1" "A" "springfield" "IL" "burgers",
   mkRow "2" "B" "springfield" "IL" "pizza",
   mkRow "3" "C" "shelbyville" "IL" "tacos",
   mkRow "4" "D" "shelbyville" "IL" "burgers"]

/-- Sample row living in province `CA`. -/
def exRowCA : Row := mkRow "7" "E" "fresno" "CA" "burgers"

/-- Two source rows sharing the id `1` but differing in content. -/
def exDup1 : Row := mkRow "1" "first" "x" "IL" "burgers"

/-- Second row with id `1`, see `exDup1`. -/
def exDup2 : Row := mkRow "1" "second" "y" "CA" "pizza"

/-- Sample variant B table: one row whose `categories` list has two
tokens, as produced by splitting `"Burgers and Sandwiches"`. -/
def exTB : List RowB :=
  [{ id := "1", name := "A", address := "", city := "x", postalCode := "",
     province := "IL", latitude := 0, longitude := 0,
     categories := ["Burgers", "Sandwiches"] }]

/-- Sample table with a tie: the name `b` appears before the name `a`,
each with one row. -/
def exTie : List Row :=
  [mkRow "1" "b" "x" "IL" "burgers", mkRow "2" "a" "y" "IL" "pizza"]

/-! ## Supporting lemmas -/

/-- The deduplicated table is a sublist of its source: rows are only
removed, never fabricated or reordered. -/
theorem dropDuplicatesById_sublist (l : List Row) :
    (dropDuplicatesById l).Sublist l := by
  induction l with
  | nil => simp [dropDuplicatesById]
  | cons r rest ih =>
    unfold dropDuplicatesById
    by_cases h : (rest.any (fun s => s.id == r.id)) = true
    · rw [if_pos h]; exact ih.cons r
    · rw [if_neg h]; exact ih.cons₂ r

/-- After dropping duplicates, the remaining ids are pairwise distinct. -/
theorem dropDuplicatesById_ids_nodup (l : List Row) :
    ((dropDuplicatesById l).map (fun r => r.id)).Nodup := by
  induction l with
  | nil => simp [dropDuplicatesById]
  | cons r rest ih =>
    unfold dropDuplicatesById
    by_cases h : (rest.any (fun s => s.id == r.id)) = true
    · rw [if_pos h]; exact ih
    · rw [if_neg h]
      simp only [List.map_cons, List.nodup_cons]
      refine ⟨?_, ih⟩
      intro hmem
      rw [List.mem_map] at hmem
      obtain ⟨s, hs, hid⟩ := hmem
      apply h
      rw [List.any_eq_true]
      exact ⟨s, (dropDuplicatesById_sublist rest).mem hs, by simp [hid]⟩

/-- Among the rows carrying a fixed id value, deduplication keeps exactly
the last one, in the sense of `List.getLast?` of the filtered source. -/
theorem dropDuplicatesById_filter_eq_getLast (a : String) (l : List Row) :
    (dropDuplicatesById l).filter (fun r => r.id == a) =
      ((l.filter (fun r => r.id == a)).getLast?).toList := by
  induction l with
  | nil => rfl
  | cons r rest ih =>
    unfold dropDuplicatesById
    by_cases h : (rest.any (fun s => s.id == r.id)) = true
    · rw [if_pos h, ih]
      by_cases hr : (r.id == a) = true
      · rw [@List.filter_cons_of_pos _ (fun r => r.id == a) r rest hr]
        have hra : r.id = a := by simpa using hr
        obtain ⟨s, hs, hsid⟩ := List.any_eq_true.mp h
        have hsa : (s.id == a) = true := by
          have hsr : s.id = r.id := by simpa using hsid
          simp [hsr, hra]
        have hne : rest.filter (fun r => r.id == a) ≠ [] :=
          List.ne_nil_of_mem (List.mem_filter.mpr ⟨hs, hsa⟩)
        obtain ⟨x, L, hL⟩ := List.exists_cons_of_ne_nil hne
        rw [hL, List.getLast?_cons_cons]
      · rw [@List.filter_cons_of_neg _ (fun r => r.id == a) r rest hr]
    · rw [if_neg h]
      by_cases hr : (r.id == a) = true
      · rw [@List.filter_cons_of_pos _ (fun r => r.id == a) r
            (dropDuplicatesById rest) hr,
          @List.filter_cons_of_pos _ (fun r => r.id == a) r rest hr]
        have hra : r.id = a := by simpa using hr
        have hnil : rest.filter (fun r => r.id == a) = [] := by
          rw [List.filter_eq_nil_iff]
          intro s hs hps
          apply h
          rw [List.any_eq_true]
          have hsa : s.id = a := by simpa using hps
          exact ⟨s, hs, by simp [hsa, hra]⟩
        rw [ih, hnil]
        rfl
      · rw [@List.filter_cons_of_neg _ (fun r => r.id == a) r
            (dropDuplicatesById rest) hr,
          @List.filter_cons_of_neg _ (fun r => r.id == a) r rest hr, ih]

/-- Sum of the counts that `value_counts` reports: one contribution per
row of the column it was computed from. -/
theorem value_counts_sum (l : List String) :
    ((value_counts l).map (fun p => p.2)).sum = l.length := by
  unfold value_counts
  have hperm :=
    (List.mergeSort_perm (l.dedup.map (fun v => (v, l.count v)))
      (fun a b => decide (b.2 ≤ a.2))).map (fun p => (p : String × Nat).2)
  rw [hperm.sum_eq, List.map_map]
  simpa using List.sum_map_count_dedup_eq_length l

/-- Sum of the counts of a sorted `groupby`: one contribution per element
of the key column, whatever the key order. -/
theorem groupbySize_sum {α : Type} [DecidableEq α] (le : α → α → Bool)
    (keys : List α) :
    ((groupbySize le keys).map (fun p => p.2)).sum = keys.length := by
  unfold groupbySize
  rw [List.map_map]
  have hperm :=
    (List.mergeSort_perm keys.dedup le).map
      ((fun p => (p : α × Nat).2) ∘ (fun v => (v, keys.count v)))
  rw [hperm.sum_eq]
  simpa [Function.comp_def] using List.sum_map_count_dedup_eq_length keys

/-- Sum of the counts of the single-key `groupby`. -/
theorem groupby_size_sum (keys : List String) :
    ((groupby_size keys).map (fun p => p.2)).sum = keys.length :=
  groupbySize_sum strLe keys

/-- Sum of the counts of the two-key `groupby`. -/
theorem groupby_size2_sum (keys : List (String × String)) :
    ((groupby_size2 keys).map (fun p => p.2)).sum = keys.length :=
  groupbySize_sum pairLe keys

/-- The distinct-city count of a table is zero exactly for the empty
table. -/
theorem city_dedup_length_eq_zero_iff (df : List Row) :
    (df.map (fun r => r.city)).dedup.length = 0 ↔ df = [] := by
  rw [List.length_eq_zero, List.dedup_eq_nil, List.map_eq_nil_iff]

/-! ## Claim theorems -/

/-- Claim C5: for every table `T`, city `c` and province `p`,
`filter_data_by_city_province T c p` returns exactly the rows of `T` whose
city matches `c` case-insensitively and whose province equals `p` exactly,
where passing `"All"` for a dimension removes that dimension's condition;
in particular `filter_data_by_city_province T "All" "All" = T`. -/
theorem claim_filter_city_province_exact :
    (∀ (T : List Row) (c p : String),
      filter_data_by_city_province T c p =
        T.filter (fun r =>
          (c == "All" || r.city.toLower == c.toLower) &&
          (p == "All" || r.province == p))) ∧
    (∀ T : List Row, filter_data_by_city_province T "All" "All" = T) := by
  have hmain : ∀ (T : List Row) (c p : String),
      filter_data_by_city_province T c p =
        T.filter (fun r =>
          (c == "All" || r.city.toLower == c.toLower) &&
          (p == "All" || r.province == p)) := by
    intro T c p
    unfold filter_data_by_city_province
    by_cases hp : p = "All" <;> by_cases hc : c = "All"
    · simp [hp, hc]
    · have hc2 : (c == "All") = false := beq_eq_false_iff_ne.mpr hc
      simp [hp, hc, hc2]
    · have hp2 : (p == "All") = false := beq_eq_false_iff_ne.mpr hp
      simp [hp, hc, hp2]
    · have hc2 : (c == "All") = false := beq_eq_false_iff_ne.mpr hc
      have hp2 : (p == "All") = false := beq_eq_false_iff_ne.mpr hp
      simp [hp, hc, hc2, hp2]
  refine ⟨hmain, ?_⟩
  intro T
  rw [hmain]
  simp

/-- Claim C6: `filter_data_by_province T "All" = T`, and for every actual
province selector `P` (distinct from the `"All"` sentinel) a row belongs to
`filter_data_by_province T P` exactly when it belongs to `T` and its
province equals `P`. -/
theorem claim_filter_province_exact :
    (∀ T : List Row, filter_data_by_province T "All" = T) ∧
    (∀ (T : List Row) (P : String) (r : Row), P ≠ "All" →
      (r ∈ filter_data_by_province T P ↔ r ∈ T ∧ r.province = P)) := by
  constructor
  · intro T
    unfold filter_data_by_province
    rw [if_pos rfl]
  · intro T P r hP
    unfold filter_data_by_province
    rw [if_neg hP]
    simp [List.mem_filter]

/-- Claim C6 witness at a concrete table and province. -/
theorem claim_filter_province_exact_witness :
    exRowCA ∈ filter_data_by_province [exRowCA] "CA" ↔
      exRowCA ∈ [exRowCA] ∧ exRowCA.province = "CA" :=
  claim_filter_province_exact.2 [exRowCA] "CA" exRowCA (by decide)

/-- Claim C8: over an empty input table every filter function (including
the category filter with a non-empty selection) and every counting
aggregation returns an empty result, without failing; the average group
size is the sole exception and yields no value on the empty (zero-group)
input. -/
theorem claim_empty_table_behavior :
    (∀ p, filter_data_by_province [] p = []) ∧
    (∀ c p, filter_data_by_city_province [] c p = []) ∧
    (∀ S, get_category_data [] S = []) ∧
    (∀ S, filter_by_states [] S = []) ∧
    (∀ S, filter_by_chains [] S = []) ∧
    value_counts [] = [] ∧
    groupby_size [] = [] ∧
    groupby_size2 [] = [] ∧
    get_top_10_restaurants [] = [] ∧
    category_counts_B [] = [] ∧
    avg_per_city [] = none := by
  refine ⟨?_, ?_, ?_, ?_, ?_, ?_, ?_, ?_, ?_, ?_, ?_⟩
  · intro p
    unfold filter_data_by_province
    split <;> rfl
  · intro c p
    unfold filter_data_by_city_province
    split <;> [skip; split] <;> first | rfl | (split <;> rfl)
  · intro S
    unfold get_category_data
    split <;> rfl
  · intro S; rfl
  · intro S
    unfold filter_by_chains
    split <;> rfl
  · simp [value_counts]
  · simp [groupby_size, groupbySize]
  · simp [groupby_size2, groupbySize]
  · simp [get_top_10_restaurants, groupby_size, groupbySize]
  · simp [category_counts_B, exploded_categories, value_counts]
  · rfl

/-- Claim C9: in variant A the category filter reads the loaded table, not
the geography-filtered view: two runs differing only in the selected
province and city produce the same `category_data`, which equals
`get_category_data` of the loaded table, and it holds exactly the loaded
rows whose `categories` value is selected (all rows when the selection is
empty). -/
theorem claim_category_data_independent :
    ∀ (df : List Row) (p1 c1 p2 c2 : String) (S : List String),
      (runApp df p1 c1 S).category_data = (runApp df p2 c2 S).category_data ∧
      (runApp df p1 c1 S).category_data = get_category_data df S ∧
      (∀ r, r ∈ (runApp df p1 c1 S).category_data ↔
        r ∈ df ∧ (S.isEmpty = true ∨ r.categories ∈ S)) := by
  intro df p1 c1 p2 c2 S
  refine ⟨rfl, rfl, ?_⟩
  intro r
  show r ∈ get_category_data df S ↔ _
  unfold get_category_data
  by_cases hS : S.isEmpty
  · simp [hS]
  · simp only [if_neg hS, List.mem_filter, hS]
    simp [List.elem_iff]

/-- Claim C10: variant A's loader propagates no failure to the script: on
a failed fetch, empty data or a missing `categories` column it returns no
table, on success it returns the cleaned table, and the dashboard body
runs exactly when a table was returned. -/
theorem claim_loader_returns_none_on_failure :
    (∀ m, loadResult (Fetched.fetchError m) = none) ∧
    loadResult Fetched.empty = none ∧
    (∀ rows, loadResult (Fetched.data false rows) = none) ∧
    (∀ rows, loadResult (Fetched.data true rows) =
      some ((dropDuplicatesById rows).map cleanRow)) ∧
    (∀ f, appRuns f = (loadResult f).isSome) := by
  refine ⟨fun m => rfl, rfl, fun rows => rfl, fun rows => rfl, fun f => rfl⟩

/-- Claim C1 (amended): variant A's loader returns a table unique by `id`
in which, for each id value, exactly the last source occurrence is
retained (with its `categories` cleaned); variant B's loader performs no
deduplication and returns every source row. -/
theorem claim_load_dedup_keeps_last :
    (∀ rows : List Row, load_and_clean_data (Fetched.data true rows) =
      Except.ok ((dropDuplicatesById rows).map cleanRow)) ∧
    (∀ rows : List Row,
      (((dropDuplicatesById rows).map cleanRow).map (fun r => r.id)).Nodup) ∧
    (∀ (rows : List Row) (a : String),
      ((dropDuplicatesById rows).map cleanRow).filter (fun r => r.id == a) =
        ((rows.filter (fun r => r.id == a)).getLast?).toList.map cleanRow) ∧
    (∀ rows : List Row, load_data (Fetched.data true rows) =
      some (rows.map splitRow)) := by
  refine ⟨fun rows => rfl, ?_, ?_, fun rows => rfl⟩
  · intro rows
    rw [List.map_map]
    exact dropDuplicatesById_ids_nodup rows
  · intro rows a
    have hcomp : ((fun r => r.id == a) ∘ cleanRow) =
      (fun r : Row => r.id == a) := rfl
    rw [List.filter_map, hcomp, dropDuplicatesById_filter_eq_getLast]

/-- Claim C1 counterexample: variant B's loader keeps both of two source
rows sharing the id `1`, so the loaded table is not unique by id and the
first occurrence is retained alongside the last. -/
theorem claim_load_dedup_counterexample :
    load_data (Fetched.data true [exDup1, exDup2]) =
      some [splitRow exDup1, splitRow exDup2] ∧
    [splitRow exDup1, splitRow exDup2].map (fun r => r.id) = ["1", "1"] ∧
    ¬ ((["1", "1"] : List String).Nodup) :=
  ⟨rfl, rfl, by decide⟩

/-- Claim C2 (amended): the counts reported by `value_counts` and by the
sorted `groupby` aggregations sum to the row count of the view they were
computed from; variant B's per-category counts are computed from the
exploded view and sum to its row count (the total number of category
tokens), not to the row count of the table before explosion. -/
theorem claim_counts_sum_to_view :
    (∀ l : List String,
      ((value_counts l).map (fun q => q.2)).sum = l.length) ∧
    (∀ keys : List String,
      ((groupby_size keys).map (fun q => q.2)).sum = keys.length) ∧
    (∀ (df : List Row) (p c : String) (S : List String),
      (((runApp df p c S).province_counts).map (fun q => q.2)).sum =
        (runApp df p c S).filtered_city_province_df.length ∧
      (((runApp df p c S).category_counts).map (fun q => q.2)).sum =
        (runApp df p c S).category_data.length ∧
      (((runApp df p c S).type_counts).map (fun q => q.2)).sum =
        (runApp df p c S).category_data.length) ∧
    (∀ dfB : List RowB,
      ((category_counts_B dfB).map (fun q => q.2)).sum =
        (exploded_categories dfB).length) := by
  refine ⟨value_counts_sum, groupby_size_sum, ?_, ?_⟩
  · intro df p c S
    refine ⟨?_, ?_, ?_⟩
    · rw [show (runApp df p c S).province_counts = value_counts
          (((runApp df p c S).filtered_city_province_df).map
            (fun r => r.province)) from rfl,
        value_counts_sum, List.length_map]
    · rw [show (runApp df p c S).category_counts = groupby_size2
          (((runApp df p c S).category_data).map
            (fun r => (r.province, r.categories))) from rfl,
        groupby_size2_sum, List.length_map]
    · rw [show (runApp df p c S).type_counts = value_counts
          (((runApp df p c S).category_data).map
            (fun r => r.categories)) from rfl,
        value_counts_sum, List.length_map]
  · intro dfB
    exact value_counts_sum (exploded_categories dfB)

/-- Claim C2 counterexample: a one-row variant B table whose categories
list has two tokens; the per-category counts computed after exploding sum
to 2, the row count of the input table is 1. -/
theorem claim_counts_sum_counterexample :
    ((category_counts_B exTB).map (fun q => q.2)).sum = 2 ∧
    exTB.length = 1 := by
  constructor
  · show ((value_counts ["Burgers", "Sandwiches"]).map (fun q => q.2)).sum = 2
    rw [value_counts_sum]
    rfl
  · rfl

/-- Claim C3 (amended): variant A's loader signals the `DataUnavailable`
conditions exactly when the resource is empty or the `categories` column
is absent; a failed network fetch — like every other unexpected failure —
produces the generic error carrying the underlying message; and no
partial table is produced on any failure. -/
theorem claim_load_failure_taxonomy :
    (∀ m, load_and_clean_data (Fetched.fetchError m) =
      Except.error (LoadFailure.loadError m)) ∧
    load_and_clean_data Fetched.empty =
      Except.error LoadFailure.dataUnavailableEmpty ∧
    (∀ rows, load_and_clean_data (Fetched.data false rows) =
      Except.error LoadFailure.dataUnavailableMissingColumn) ∧
    (∀ f, (∃ e, load_and_clean_data f = Except.error e ∧
        isDataUnavailable e = true) ↔
      (f = Fetched.empty ∨ ∃ rows, f = Fetched.data false rows)) ∧
    (∀ f, loadResult f = none ↔
      ∃ e, load_and_clean_data f = Except.error e) := by
  refine ⟨fun m => rfl, rfl, fun rows => rfl, ?_, ?_⟩
  · intro f
    cases f with
    | fetchError m => simp [load_and_clean_data, isDataUnavailable]
    | empty => simp [load_and_clean_data, isDataUnavailable]
    | data b rows =>
      cases b <;> simp [load_and_clean_data, isDataUnavailable]
  · intro f
    cases f with
    | fetchError m => simp [loadResult, load_and_clean_data, Except.toOption]
    | empty => simp [loadResult, load_and_clean_data, Except.toOption]
    | data b rows =>
      cases b <;> simp [loadResult, load_and_clean_data, Except.toOption]

/-- Claim C3 counterexample: a failed network fetch is mapped to the
generic error message, which is not a `DataUnavailable` condition. -/
theorem claim_load_failure_counterexample :
    load_and_clean_data (Fetched.fetchError "connection refused") =
      Except.error (LoadFailure.loadError "connection refused") ∧
    isDataUnavailable (LoadFailure.loadError "connection refused") = false :=
  ⟨rfl, rfl⟩

/-- Claim C4 (amended): the top-10 aggregation returns at most 10
`(name, count)` entries, sorted descending by count, and the returned
counts sum to at most the row count of the input table.  Ties are not
returned in first-seen order: the group keys enter the final sort in
ascending name order. -/
theorem claim_top10_sorted_bounded :
    ∀ df : List Row,
      (get_top_10_restaurants df).length ≤ 10 ∧
      List.Pairwise (fun a b => (b : String × Nat).2 ≤ a.2)
        (get_top_10_restaurants df) ∧
      ((get_top_10_restaurants df).map (fun q => q.2)).sum ≤ df.length := by
  intro df
  have hperm := List.mergeSort_perm (groupby_size (df.map (fun r => r.name)))
    (fun a b => decide (b.2 ≤ a.2))
  refine ⟨List.length_take_le 10 _, ?_, ?_⟩
  · have htrans : ∀ (a b c : String × Nat),
        (decide (b.2 ≤ a.2)) = true → (decide (c.2 ≤ b.2)) = true →
        (decide (c.2 ≤ a.2)) = true := by
      intro a b c hab hbc
      simp only [decide_eq_true_eq] at hab hbc ⊢
      exact le_trans hbc hab
    have htotal : ∀ (a b : String × Nat),
        ((decide (b.2 ≤ a.2)) || (decide (a.2 ≤ b.2))) = true := by
      intro a b
      rcases Nat.le_total b.2 a.2 with h | h <;> simp [h]
    have hsorted := List.sorted_mergeSort htrans htotal
      (groupby_size (df.map (fun r => r.name)))
    have hpair : List.Pairwise
        (fun a b => (decide ((b : String × Nat).2 ≤ a.2)) = true)
        (get_top_10_restaurants df) :=
      List.Pairwise.sublist (List.take_sublist 10 _) hsorted
    exact hpair.imp (fun h => of_decide_eq_true h)
  · have hsum_all : ((List.mergeSort (groupby_size (df.map (fun r => r.name)))
        (fun a b => decide (b.2 ≤ a.2))).map (fun q => q.2)).sum =
          df.length := by
      rw [(hperm.map (fun q => (q : String × Nat).2)).sum_eq, groupby_size_sum,
        List.length_map]
    rw [show get_top_10_restaurants df = (List.mergeSort
        (groupby_size (df.map (fun r => r.name)))
        (fun a b => decide (b.2 ≤ a.2))).take 10 from rfl]
    rw [List.map_take]
    have hle : (List.take 10 ((List.mergeSort
        (groupby_size (df.map (fun r => r.name)))
        (fun a b => decide (b.2 ≤ a.2))).map (fun q => q.2))).sum ≤
        ((List.mergeSort (groupby_size (df.map (fun r => r.name)))
          (fun a b => decide (b.2 ≤ a.2))).map (fun q => q.2)).sum := by
      rw [← List.sum_take_add_sum_drop ((List.mergeSort
        (groupby_size (df.map (fun r => r.name)))
        (fun a b => decide (b.2 ≤ a.2))).map (fun q => q.2)) 10]
      exact Nat.le_add_right _ _
    exact le_trans hle (le_of_eq hsum_all)

unseal List.merge List.mergeSort in
theorem top10_exTie_eval :
    get_top_10_restaurants exTie = [("a", 1), ("b", 1)] := rfl

/-- Claim C4 counterexample: in a table where name `b` appears before
name `a` and both have count 1, the top-10 output lists `a` before `b`,
so ties are not broken by first-seen order of the group in the input. -/
theorem claim_top10_tiebreak_counterexample :
    exTie.map (fun r => r.name) = ["b", "a"] ∧
    get_top_10_restaurants exTie = [("a", 1), ("b", 1)] :=
  ⟨rfl, top10_exTie_eval⟩

/-- Claim C7: the average group size is the row count divided by the
distinct group count, it yields no value exactly on the empty
(zero-group) table, and a 4-row table with 2 distinct cities averages
2.0. -/
theorem claim_average_group_size :
    (∀ df : List Row, (avg_per_city df = none ↔ df = [])) ∧
    (∀ df : List Row, df ≠ [] →
      avg_per_city df = some ((df.length : ℚ) /
        ((df.map (fun r => r.city)).dedup.length : ℚ))) ∧
    avg_per_city exT4 = some 2 := by
  refine ⟨?_, ?_, ?_⟩
  · intro df
    by_cases h : df = []
    · subst h
      simp [avg_per_city, averageGroupSize]
    · have h0 : ¬ (df.map (fun r => r.city)).dedup.length = 0 := by
        rw [city_dedup_length_eq_zero_iff]; exact h
      unfold avg_per_city averageGroupSize
      rw [if_neg h0]
      simp [h]
  · intro df h
    have h0 : ¬ (df.map (fun r => r.city)).dedup.length = 0 := by
      rw [city_dedup_length_eq_zero_iff]; exact h
    unfold avg_per_city averageGroupSize
    rw [if_neg h0, List.length_map]
  · have h1 : avg_per_city exT4 =
        some (((4 : Nat) : ℚ) / ((2 : Nat) : ℚ)) := rfl
    rw [h1]
    norm_num

/-- Claim C7 witness at a concrete non-empty table. -/
theorem claim_average_group_size_witness :
    avg_per_city exT4 = some ((exT4.length : ℚ) /
      ((exT4.map (fun r => r.city)).dedup.length : ℚ)) :=
  claim_average_group_size.2.1 exT4 (by decide)
